import Mathlib

/-!
Shallow embedding of the camera-surveillance pipeline
(`src/motion_detector.py`, `src/recorder.py`, `src/main.py`) and proofs of the
spec claims about it.

Modelling conventions:
* timestamps (`time.time()`) are integers (`Int`), all comparisons exactly as
  in the source; fractional ROI coordinates are rationals (`ℚ`);
* a video frame is its dimensions plus a pixel map (BGR colour per coordinate);
  the external OpenCV contour pipeline is abstracted as the list of detected
  contours (area + bounding box) handed to `detect`, and `cv2.rectangle` is
  modelled as painting the border pixels of the rectangle (thickness spread
  `t / 2` around the outline);
* Python exceptions are explicit values (`PyError`); a raised-and-caught
  exception shows up as a `caughtError` event;
* external side effects (logger calls, Telegram sends, log-file appends) are
  recorded in an event list.
-/

set_option autoImplicit false

/-- Colour of a pixel, BGR triple as used by OpenCV. -/
def Color : Type := Nat × Nat × Nat

instance : DecidableEq Color := instDecidableEqProd

/-- A decoded video frame: dimensions plus the pixel map. -/
structure Frame where
  width : Nat
  height : Nat
  pixel : Nat → Nat → Color

/-- Python truthiness of `opt or dflt` on an optional number
(`state['last_motion'] or now` in `main.py`): `None` and `0` are falsy. -/
def pyOrInt : Option Int → Int → Int
  | some v, d => if v = 0 then d else v
  | none, d => d

/-- Python `int()` truncation toward zero of a rational (`int(pct * width)` in
`MotionDetector.get_roi_mask`). -/
def pyInt (q : ℚ) : Int := q.num.tdiv q.den

/-- Membership of pixel `(x, y)` in the painted border of the rectangle
`(x1, y1)-(x2, y2)` drawn with the given thickness, as `cv2.rectangle` paints
it: within the rectangle expanded by `t / 2` but not strictly inside the
rectangle shrunk by `t / 2`. -/
def on_rect_border (x1 y1 x2 y2 t x y : Int) : Bool :=
  let r := t / 2
  (decide (x1 - r ≤ x) && decide (x ≤ x2 + r) &&
   decide (y1 - r ≤ y) && decide (y ≤ y2 + r)) &&
  !(decide (x1 + r < x) && decide (x < x2 - r) &&
    decide (y1 + r < y) && decide (y < y2 - r))

/-- Model of `cv2.rectangle(frame, (x1, y1), (x2, y2), color, thickness)`:
mutates the frame in place, painting the border pixels with the colour. -/
def cv_rectangle (f : Frame) (x1 y1 x2 y2 : Int) (color : Color)
    (thickness : Int) : Frame :=
  { f with pixel := fun x y =>
      if on_rect_border x1 y1 x2 y2 thickness (x : Int) (y : Int) then color
      else f.pixel x y }

/-- An external contour as produced by the OpenCV pipeline inside
`MotionDetector.detect`: its area (`cv2.contourArea`) and bounding box
(`cv2.boundingRect`). -/
structure Contour where
  area : ℚ
  x : Int
  y : Int
  w : Int
  h : Int

/-- State of `MotionDetector` (`motion_detector.py`): the configuration fields
and the two debounce counters set in `__init__`.  The background subtractor,
morphology kernel and `last_frame` live entirely inside the external OpenCV
pipeline and carry no information the claims need. -/
structure MotionDetector where
  roi_percentage : ℚ × ℚ × ℚ × ℚ
  threshold : ℚ
  min_motion_frames : Nat
  motion_frames : Nat
  no_motion_frames : Nat
deriving DecidableEq

/-- Fresh detector as built by `MotionDetector.__init__`. -/
def MotionDetector.init (roi : ℚ × ℚ × ℚ × ℚ) (threshold : ℚ)
    (min_motion_frames : Nat) : MotionDetector :=
  { roi_percentage := roi
    threshold := threshold
    min_motion_frames := min_motion_frames
    motion_frames := 0
    no_motion_frames := 0 }

/-- ROI pixel coordinates, `MotionDetector.get_roi_mask` lines 37-40:
`int(pct * dimension)` for each of the four fractional coordinates. -/
def MotionDetector.get_roi_coords (d : MotionDetector) (width height : Nat) :
    Int × Int × Int × Int :=
  (pyInt (d.roi_percentage.1 * width),
   pyInt (d.roi_percentage.2.1 * height),
   pyInt (d.roi_percentage.2.2.1 * width),
   pyInt (d.roi_percentage.2.2.2 * height))

/-- Counter update of `MotionDetector.detect`, lines 93-100: a qualifying
frame increments `motion_frames` and zeroes `no_motion_frames`; a
non-qualifying frame increments `no_motion_frames` and, once that counter
exceeds 5, zeroes `motion_frames`. -/
def MotionDetector.update (d : MotionDetector) (motion_detected : Bool) :
    MotionDetector :=
  if motion_detected then
    { d with motion_frames := d.motion_frames + 1, no_motion_frames := 0 }
  else
    let d1 := { d with no_motion_frames := d.no_motion_frames + 1 }
    if d1.no_motion_frames > 5 then { d1 with motion_frames := 0 } else d1

/-- Return value of `MotionDetector.detect`, line 103:
`self.motion_frames >= self.min_motion_frames`. -/
def MotionDetector.confirmed (d : MotionDetector) : Bool :=
  decide (d.motion_frames ≥ d.min_motion_frames)

/-- One call of `MotionDetector.detect` seen as a transition on the counters,
with the contour pipeline abstracted into the per-frame boolean
`motion_detected` (whether some contour of area at least `threshold` exists). -/
def MotionDetector.detect (d : MotionDetector) (motion_detected : Bool) :
    MotionDetector × Bool :=
  let d1 := d.update motion_detected
  (d1, d1.confirmed)

/-- Folding the counter transition over a stream of per-frame qualifying
results. -/
def MotionDetector.run (d : MotionDetector) (s : List Bool) : MotionDetector :=
  s.foldl MotionDetector.update d

/-- Full `MotionDetector.detect` including its effect on the input frame
(lines 54-103): the abstracted contour pipeline yields `contours`; a contour
whose area is below `threshold` is skipped (line 80), every other contour sets
`motion_detected` and gets a green bounding box drawn onto the input frame
(line 87); the red ROI rectangle is always drawn onto the input frame
(line 91); finally the counters are updated and the confirmation bit
returned. -/
def MotionDetector.detect_full (d : MotionDetector) (frame : Frame)
    (contours : List Contour) : MotionDetector × Frame × Bool :=
  let motion_detected := contours.any fun c => !(decide (c.area < d.threshold))
  let frame1 := contours.foldl
    (fun fr c =>
      if c.area < d.threshold then fr
      else cv_rectangle fr c.x c.y (c.x + c.w) (c.y + c.h) (0, 255, 0) 2)
    frame
  let coords := d.get_roi_coords frame.width frame.height
  let frame2 := cv_rectangle frame1 coords.1 coords.2.1 coords.2.2.1
    coords.2.2.2 (0, 0, 255) 2
  let d1 := d.update motion_detected
  (d1, frame2, d1.confirmed)

/-- A Python exception value. -/
inductive PyError
  | nameError (name : String)
  | typeError (message : String)
deriving DecidableEq

/-- The exception raised by `VideoRecorder.start_recording` line 49 when
`cv2.VideoWriter` fails to open (`Failed to open video writer`). -/
inductive RecError
  | encoderOpenError
deriving DecidableEq

/-- State of a `cv2.VideoWriter` as the recorder uses it: whether it opened,
the frames written to it, and whether it has been released. -/
structure VideoWriter where
  opened : Bool
  frames_written : List Frame
  released : Bool

/-- State of `VideoRecorder` (`recorder.py`), mirroring the attributes set in
`__init__`.  `recording_thread` tells whether a consumer-loop thread object
has been created; the bounded `queue.Queue(maxsize=100)` is the FIFO list
`frame_queue`. -/
structure VideoRecorder where
  output_dir : String
  camera_name : String
  resolution : Nat × Nat
  fps : Nat
  codec : String
  is_recording : Bool
  video_writer : Option VideoWriter
  frame_queue : List Frame
  recording_thread : Bool
  last_video_path : Option String
  start_time : Option Int

/-- Fresh recorder as built by `VideoRecorder.__init__`. -/
def VideoRecorder.init (output_dir camera_name : String)
    (resolution : Nat × Nat) (fps : Nat) (codec : String) : VideoRecorder :=
  { output_dir := output_dir
    camera_name := camera_name
    resolution := resolution
    fps := fps
    codec := codec
    is_recording := false
    video_writer := none
    frame_queue := []
    recording_thread := false
    last_video_path := none
    start_time := none }

/-- Target file name of `VideoRecorder.start_recording` line 38:
`output_dir / f"{camera_name}_{timestamp}.mp4"`, with the wall-clock
timestamp rendered as a string. -/
def VideoRecorder.video_path_for (r : VideoRecorder) (now : Int) : String :=
  r.output_dir ++ "/" ++ r.camera_name ++ "_" ++ toString now ++ ".mp4"

/-- Body of `VideoRecorder.add_frame`, lines 60-63: while recording and the
bounded queue (capacity 100) is not full, enqueue a copy of the frame;
otherwise do nothing at all. -/
def VideoRecorder.add_frame (r : VideoRecorder) (frame : Frame) :
    VideoRecorder :=
  if r.is_recording ∧ r.frame_queue.length < 100 then
    { r with frame_queue := r.frame_queue ++ [frame] }
  else r

/-- Body of `VideoRecorder.start_recording`, lines 29-58.  The `cv2.VideoWriter`
constructor touches the filesystem, so whether the writer opens is the
external input `writer_opens`; `now` stands for the wall clock.  A raised
exception is returned alongside the recorder state the Python object is left
in (Python does not roll attributes back on `raise`): `is_recording` has
already been set on line 34 and `last_video_path` and `video_writer` on
lines 38-46 before the `isOpened` check on line 48 raises. -/
def VideoRecorder.start_recording (r : VideoRecorder) (first_frame : Frame)
    (now : Int) (writer_opens : Bool) : VideoRecorder × Option RecError :=
  if r.is_recording then (r, none)
  else
    let r1 := { r with
      is_recording := true
      last_video_path := some (r.video_path_for now)
      video_writer := some
        { opened := writer_opens, frames_written := [], released := false } }
    if writer_opens = false then (r1, some RecError.encoderOpenError)
    else
      let r2 := { r1 with recording_thread := true }
      let r3 := r2.add_frame first_frame
      ({ r3 with start_time := some now }, none)

/-- The consumer loop `_recording_loop` after `stop` flips `is_recording`
off: it drains the remaining queued frames into the writer in arrival order
and releases the writer (lines 65-81), modelled synchronously at the join on
line 92. -/
def VideoWriter.drain (w : VideoWriter) (fs : List Frame) : VideoWriter :=
  { w with frames_written := w.frames_written ++ fs, released := true }

/-- Body of `VideoRecorder.stop_recording`, lines 83-102: if not recording,
return `None` leaving the state untouched; otherwise clear `is_recording`,
let the consumer loop drain and release the writer, clear the queue, and
return `last_video_path`. -/
def VideoRecorder.stop_recording (r : VideoRecorder) :
    VideoRecorder × Option String :=
  if r.is_recording = false then (r, none)
  else
    let r1 := { r with
      is_recording := false
      video_writer := (r.video_writer).map fun w => w.drain r.frame_queue
      frame_queue := [] }
    (r1, r1.last_video_path)

/-- Body of `VideoRecorder.get_last_duration`, lines 104-108: wall clock minus
`start_time` when `start_time` is truthy (a zero timestamp is falsy in
Python), else `0.0`. -/
def VideoRecorder.get_last_duration (r : VideoRecorder) (now : Int) : Int :=
  match r.start_time with
  | some t => if t = 0 then 0 else now - t
  | none => 0

/-- A Python attribute value relevant to the name `is_recording` on a
`VideoRecorder` instance: either the boolean stored in the instance dict or
the function object from the class dict. -/
inductive AttrValue
  | pyBool (b : Bool)
  | pyMethod
deriving DecidableEq

/-- Python attribute lookup for `recorder.is_recording`: `__init__`
(recorder.py line 19) stores the boolean `self.is_recording = False` in the
instance dict, and instance-dict entries shadow the plain function
`def is_recording(self)` of the class dict (line 110), so the lookup yields
the boolean, never the method. -/
def VideoRecorder.attr_is_recording (r : VideoRecorder) : AttrValue :=
  AttrValue.pyBool r.is_recording

/-- Calling the looked-up attribute with no arguments, as
`recorder.is_recording()` does in `main.py` line 301: calling a `bool` raises
`TypeError`; calling the method would run its body `return self.is_recording`
(which, resolving the name the same way, yields the stored boolean). -/
def pyCall0Bool (r : VideoRecorder) : AttrValue → Except PyError Bool
  | AttrValue.pyBool _ =>
      Except.error (PyError.typeError "bool object is not callable")
  | AttrValue.pyMethod => Except.ok r.is_recording

/-- Per-camera configuration values `main.py` reads from `self.config`. -/
structure CameraConfig where
  name : String
  min_motion_frames : Nat
  min_recording_time : Int
  cooldown_time : Int
  send_snapshot : Bool
  send_video : Bool

/-- Entry of `camera_states` as initialized in `initialize_camera`
lines 79-85. -/
structure CamState where
  recording : Bool
  motion_start : Option Int
  last_motion : Option Int
  motion_count : Nat
  cooldown_until : Option Int
deriving DecidableEq

/-- Initial camera state, `initialize_camera` lines 79-85. -/
def CamState.init : CamState :=
  { recording := false
    motion_start := none
    last_motion := none
    motion_count := 0
    cooldown_until := none }

/-- Record built by `log_recging` lines 257-263. -/
structure LogEntry where
  camera_id : String
  camera_name : String
  video_path : String
  timestamp : Int
  duration : Int
deriving DecidableEq

/-- Observable external effects of the supervisor layer: logger calls,
Telegram sends, recording-log appends, and exceptions caught by the
`try/except` blocks of `main.py`. -/
inductive Event
  | startedRecording (path : String)
  | startFailed
  | sentAlert
  | addFrame
  | savedLogInfo (path : String)
  | sentVideo (path : String)
  | appendedLogEntry (entry : LogEntry)
  | caughtError (e : PyError)
deriving DecidableEq

/-- Module-level names bound in `main.py` (lines 5-20): its imports.  `json`
is not among them, although `log_recging` uses `json.dumps`. -/
def main_module_names : List String :=
  ["cv2", "time", "logging", "yaml", "signal", "sys", "Path", "datetime",
   "Dict", "Any", "threading", "queue", "MotionDetector", "VideoRecorder",
   "TelegramBot", "VideoProcessor"]

/-- Body of `SurveillanceSystem.log_recging`, lines 255-267: build the log
entry (including `get_last_duration()`), then evaluate
`json.dumps(log_entry)` — resolving the free name `json` in the module
namespace, which raises `NameError` when the name is unbound — and only then
append the serialized entry to `logs/recordings.jsonl`.  Returns the entry
that would be appended, or the raised exception. -/
def log_recging (cfg : CameraConfig) (camera_id : String) (video_path : String)
    (r : VideoRecorder) (now : Int) : Except PyError LogEntry :=
  let entry : LogEntry :=
    { camera_id := camera_id
      camera_name := cfg.name
      video_path := video_path
      timestamp := now
      duration := r.get_last_duration now }
  if "json" ∈ main_module_names then Except.ok entry
  else Except.error (PyError.nameError "json")

/-- Body of `SurveillanceSystem.start_recording`, lines 207-214: call the
recorder's `start_recording` inside `try/except`; on success log the start,
on exception log the failure and continue. -/
def start_recording_main (r : VideoRecorder) (first_frame : Frame) (now : Int)
    (writer_opens : Bool) : VideoRecorder × List Event :=
  let res := r.start_recording first_frame now writer_opens
  match res.2 with
  | none => (res.1, [Event.startedRecording (r.video_path_for now)])
  | some _ => (res.1, [Event.startFailed])

/-- Body of `SurveillanceSystem.stop_recording`, lines 216-232: call the
recorder's `stop_recording`; if it returned a path, log it, send the video to
Telegram when configured, and call `log_recging` — whose raised exception is
caught by the surrounding `try/except` and logged. -/
def stop_recording_main (cfg : CameraConfig) (camera_id : String)
    (r : VideoRecorder) (now : Int) : VideoRecorder × List Event :=
  let res := r.stop_recording
  match res.2 with
  | none => (res.1, [])
  | some p =>
    let evs := [Event.savedLogInfo p] ++
      (if cfg.send_video then [Event.sentVideo p] else [])
    match log_recging cfg camera_id p res.1 now with
    | Except.ok entry => (res.1, evs ++ [Event.appendedLogEntry entry])
    | Except.error e => (res.1, evs ++ [Event.caughtError e])

/-- Body of `SurveillanceSystem.update_camera_state`, lines 162-205, on one
processed frame.  `motion_detected` is the value `MotionDetector.detect`
returned for the frame; `now` is `time.time()`.  On the no-motion path with
an expired cooldown the source computes `now - state['motion_start']`, which
raises `TypeError` when `motion_start` is `None`. -/
def update_camera_state (cfg : CameraConfig) (camera_id : String)
    (st : CamState) (r : VideoRecorder) (motion_detected : Bool)
    (frame : Frame) (now : Int) (writer_opens : Bool) :
    Except PyError (CamState × VideoRecorder × List Event) :=
  if motion_detected then
    let st1 := { st with
      motion_count := st.motion_count + 1
      last_motion := some now }
    if st1.recording = false ∧ st1.motion_count ≥ cfg.min_motion_frames then
      let res := start_recording_main r frame now writer_opens
      let st2 := { st1 with
        recording := true
        motion_start := some now
        cooldown_until := none }
      let evs := res.2 ++ (if cfg.send_snapshot then [Event.sentAlert] else [])
      Except.ok (st2, res.1, evs)
    else if st1.recording then
      Except.ok (st1, r.add_frame frame, [Event.addFrame])
    else
      Except.ok (st1, r, [])
  else
    if st.recording then
      let time_since_motion : Int := now - pyOrInt st.last_motion now
      if time_since_motion > cfg.cooldown_time then
        match st.motion_start with
        | none => Except.error (PyError.typeError
            "unsupported operand type for NoneType")
        | some ms =>
          if now - ms ≥ cfg.min_recording_time then
            let res := stop_recording_main cfg camera_id r now
            Except.ok ({ st with recording := false, motion_count := 0 },
              res.1, res.2)
          else
            Except.ok (st, r.add_frame frame, [Event.addFrame])
      else
        Except.ok (st, r.add_frame frame, [Event.addFrame])
    else
      Except.ok (st, r, [])

/-- Loop body of `SurveillanceSystem.stop`, lines 294-305: for each recorder,
evaluate `recorder.is_recording()` — attribute lookup followed by a call —
and, when it is truthy, call `stop_recording`.  An uncaught exception aborts
the loop and propagates out of `stop`. -/
def stop_all_recorders : List VideoRecorder →
    Except PyError (List VideoRecorder)
  | [] => Except.ok []
  | r :: rs => do
    let active ← pyCall0Bool r r.attr_is_recording
    let r1 := if active then (r.stop_recording).1 else r
    let rs1 ← stop_all_recorders rs
    Except.ok (r1 :: rs1)

/-- One iteration of the per-camera pipeline as `process_camera_stream`
drives it (lines 143-146): run the motion detector on the frame, then the
state machine.  The contour pipeline is abstracted into the per-frame
qualifying boolean. -/
def process_frame (cfg : CameraConfig) (camera_id : String)
    (d : MotionDetector) (st : CamState) (r : VideoRecorder)
    (qualifying : Bool) (frame : Frame) (now : Int) (writer_opens : Bool) :
    Except PyError (MotionDetector × CamState × VideoRecorder × List Event) :=
  let det := d.detect qualifying
  match update_camera_state cfg camera_id st r det.2 frame now writer_opens with
  | Except.ok res => Except.ok (det.1, res.1, res.2.1, res.2.2)
  | Except.error e => Except.error e

/-- Aggregate state of one camera's pipeline plus the trace of events so
far. -/
structure PipelineState where
  detector : MotionDetector
  camState : CamState
  recorder : VideoRecorder
  events : List Event

/-- Feeding a timed stream of qualifying results through the pipeline, one
frame per list entry, accumulating the emitted events. -/
def run_pipeline (cfg : CameraConfig) (camera_id : String) (frame : Frame)
    (writer_opens : Bool) : PipelineState → List (Bool × Int) →
    Except PyError PipelineState
  | p, [] => Except.ok p
  | p, (q, now) :: rest => do
    let step ← process_frame cfg camera_id p.detector p.camState p.recorder q
      frame now writer_opens
    run_pipeline cfg camera_id frame writer_opens
      { detector := step.1
        camState := step.2.1
        recorder := step.2.2.1
        events := p.events ++ step.2.2.2 } rest

/-- Test frame used in concrete runs: 10 by 10 pixels, all black. -/
def black_frame : Frame :=
  { width := 10, height := 10, pixel := fun _ _ => (0, 0, 0) }

/-- Camera configuration of end-to-end scenario B (spec §8), with the
minimum recording time chosen above the cooldown so the minimum-duration
branch is exercised. -/
def cfgB : CameraConfig :=
  { name := "cam1"
    min_motion_frames := 10
    min_recording_time := 15
    cooldown_time := 3
    send_snapshot := false
    send_video := false }

/-- Fresh detector as `initialize_camera` builds it with the default ROI and
thresholds. -/
def detector0 : MotionDetector := MotionDetector.init (0, 0, 1, 1) 500 10

/-- Fresh recorder as `initialize_camera` builds it. -/
def recorder0 : VideoRecorder :=
  VideoRecorder.init "recordings" "cam1" (1280, 720) 15 "mp4v"

/-- Recorder with one active recording, started on a frame at time 18 with a
successfully opened encoder. -/
def active_recorder : VideoRecorder :=
  (recorder0.start_recording black_frame 18 true).1

/-- Recorder whose bounded frame buffer is at capacity. -/
def full_recorder : VideoRecorder :=
  { active_recorder with frame_queue := List.replicate 100 black_frame }

/-- Fresh pipeline for scenario runs: detector, camera state and recorder as
`initialize_camera` builds them. -/
def pipeline0 : PipelineState :=
  { detector := detector0
    camState := CamState.init
    recorder := recorder0
    events := [] }

/-- First `n` frames of scenario B: one frame per second at times `0, 1, …`,
qualifying (a contour of area at least the threshold present) for the first
19 frames, non-qualifying afterwards. -/
def scenarioB_inputs (n : Nat) : List (Bool × Int) :=
  (List.range n).map fun i => (decide (i < 19), (i : Int))

/-- Whether an event is the stop of a recording (the `logger.info` of
`Recording saved` that `stop_recording` emits exactly when the recorder
returned a path). -/
def Event.isSavedLog : Event → Bool
  | Event.savedLogInfo _ => true
  | _ => false

/-- Run scenario B for `n` frames and report the externally visible outcome:
whether the camera is recording, the supervisor's motion counter, and how
many recordings were finalized. -/
def scenarioB (n : Nat) : Except PyError (Bool × Nat × Nat) :=
  (run_pipeline cfgB "cam1" black_frame true pipeline0
    (scenarioB_inputs n)).map fun p =>
    (p.camState.recording, p.camState.motion_count,
     p.events.countP Event.isSavedLog)

/-- The contour-drawing pass of `detect` (line 87 applied along the contour
list). -/
def draw_contours (d : MotionDetector) (cs : List Contour) (f : Frame) :
    Frame :=
  cs.foldl
    (fun fr c =>
      if c.area < d.threshold then fr
      else cv_rectangle fr c.x c.y (c.x + c.w) (c.y + c.h) (0, 255, 0) 2)
    f

/-- Telegram-enabled configuration for the recording-log claim. -/
def cfg5 : CameraConfig :=
  { name := "cam1"
    min_motion_frames := 10
    min_recording_time := 15
    cooldown_time := 3
    send_snapshot := false
    send_video := true }

/-- Camera state of an active recording used to witness the supervisor
claims: recording since time 18, last confirmed motion at time 23. -/
def stB : CamState :=
  { recording := true
    motion_start := some 18
    last_motion := some 23
    motion_count := 15
    cooldown_until := none }

/-!
Helper lemmas about the detector's debounce counters.
-/

theorem MotionDetector.run_nil (d : MotionDetector) : d.run [] = d := rfl

theorem MotionDetector.run_cons (d : MotionDetector) (b : Bool) (s : List Bool) :
    d.run (b :: s) = (d.update b).run s := rfl

theorem MotionDetector.run_append (d : MotionDetector) (a b : List Bool) :
    d.run (a ++ b) = (d.run a).run b :=
  List.foldl_append ..

theorem MotionDetector.update_true (d : MotionDetector) :
    d.update true =
      { d with motion_frames := d.motion_frames + 1, no_motion_frames := 0 } :=
  rfl

theorem MotionDetector.update_false_small (d : MotionDetector)
    (h : d.no_motion_frames + 1 ≤ 5) :
    d.update false = { d with no_motion_frames := d.no_motion_frames + 1 } := by
  unfold MotionDetector.update
  simp only [Bool.false_eq_true, if_false]
  rw [if_neg]
  omega

theorem MotionDetector.update_false_big (d : MotionDetector)
    (h : d.no_motion_frames + 1 > 5) :
    d.update false =
      { d with motion_frames := 0, no_motion_frames := d.no_motion_frames + 1 } := by
  unfold MotionDetector.update
  simp only [Bool.false_eq_true, if_false]
  rw [if_pos h]

theorem MotionDetector.update_motion_le (d : MotionDetector) (b : Bool) :
    (d.update b).motion_frames ≤
      d.motion_frames + (if b then 1 else 0) := by
  cases b with
  | true => simp [MotionDetector.update_true]
  | false =>
    unfold MotionDetector.update
    simp only [Bool.false_eq_true, if_false]
    split <;> simp

theorem MotionDetector.update_min (d : MotionDetector) (b : Bool) :
    (d.update b).min_motion_frames = d.min_motion_frames := by
  cases b with
  | true => rfl
  | false =>
    unfold MotionDetector.update
    simp only [Bool.false_eq_true, if_false]
    split <;> rfl

theorem MotionDetector.run_min (d : MotionDetector) (s : List Bool) :
    (d.run s).min_motion_frames = d.min_motion_frames := by
  induction s generalizing d with
  | nil => rfl
  | cons b s ih => rw [MotionDetector.run_cons, ih, MotionDetector.update_min]

theorem MotionDetector.run_motion_le (d : MotionDetector) (s : List Bool) :
    (d.run s).motion_frames ≤ d.motion_frames + s.count true := by
  induction s generalizing d with
  | nil => simp [MotionDetector.run_nil]
  | cons b s ih =>
    rw [MotionDetector.run_cons]
    have h1 := ih (d.update b)
    have h2 := MotionDetector.update_motion_le d b
    have h3 : (b :: s).count true = s.count true + (if b then 1 else 0) := by
      cases b <;> simp [List.count_cons]
    omega

theorem MotionDetector.run_false_small (d : MotionDetector) (g : Nat)
    (h : d.no_motion_frames + g ≤ 5) :
    d.run (List.replicate g false) =
      { d with no_motion_frames := d.no_motion_frames + g } := by
  induction g generalizing d with
  | zero => simp [MotionDetector.run_nil]
  | succ g ih =>
    rw [List.replicate_succ, MotionDetector.run_cons,
      MotionDetector.update_false_small d (by omega)]
    rw [ih _ (by simp; omega)]
    simp
    omega

theorem MotionDetector.run_false_zero (d : MotionDetector) (g : Nat)
    (h : d.motion_frames = 0) :
    (d.run (List.replicate g false)).motion_frames = 0 := by
  have := MotionDetector.run_motion_le d (List.replicate g false)
  simp [List.count_replicate] at this
  omega

theorem MotionDetector.run_true_replicate (d : MotionDetector) (k : Nat) :
    (d.run (List.replicate k true)).motion_frames = d.motion_frames + k := by
  induction k generalizing d with
  | zero => simp [MotionDetector.run_nil]
  | succ k ih =>
    rw [List.replicate_succ, MotionDetector.run_cons,
      MotionDetector.update_true, ih]
    simp
    omega

theorem MotionDetector.run_false_big (d : MotionDetector) (g : Nat)
    (h0 : d.no_motion_frames = 0) (h6 : 6 ≤ g) :
    (d.run (List.replicate g false)).motion_frames = 0 := by
  have hsplit : List.replicate g false =
      List.replicate 6 false ++ List.replicate (g - 6) false := by
    rw [← List.replicate_add]
    congr 1
    omega
  rw [hsplit, MotionDetector.run_append]
  apply MotionDetector.run_false_zero
  have h5 : List.replicate 6 false = List.replicate 5 false ++ [false] := by
    decide
  rw [h5, MotionDetector.run_append,
    MotionDetector.run_false_small d 5 (by omega)]
  rw [MotionDetector.run_cons]
  rw [MotionDetector.update_false_big _ (by simp)]
  rfl

/-!
Helper lemmas about the frame effect of `detect` and about the recorder.
-/

theorem cv_rectangle_width (f : Frame) (x1 y1 x2 y2 : Int) (c : Color)
    (t : Int) : (cv_rectangle f x1 y1 x2 y2 c t).width = f.width := rfl

theorem cv_rectangle_height (f : Frame) (x1 y1 x2 y2 : Int) (c : Color)
    (t : Int) : (cv_rectangle f x1 y1 x2 y2 c t).height = f.height := rfl

theorem cv_rectangle_pixel_off (f : Frame) (x1 y1 x2 y2 : Int) (c : Color)
    (t : Int) (x y : Nat)
    (h : on_rect_border x1 y1 x2 y2 t (x : Int) (y : Int) = false) :
    (cv_rectangle f x1 y1 x2 y2 c t).pixel x y = f.pixel x y := by
  simp [cv_rectangle, h]

theorem draw_contours_width (d : MotionDetector) (cs : List Contour)
    (f : Frame) : (draw_contours d cs f).width = f.width := by
  induction cs generalizing f with
  | nil => rfl
  | cons c cs ih =>
    show (draw_contours d cs _).width = _
    rw [ih]
    dsimp only
    split <;> rfl

theorem draw_contours_height (d : MotionDetector) (cs : List Contour)
    (f : Frame) : (draw_contours d cs f).height = f.height := by
  induction cs generalizing f with
  | nil => rfl
  | cons c cs ih =>
    show (draw_contours d cs _).height = _
    rw [ih]
    dsimp only
    split <;> rfl

theorem draw_contours_pixel_off (d : MotionDetector) (cs : List Contour)
    (f : Frame) (x y : Nat)
    (h : ∀ c ∈ cs, c.area < d.threshold ∨
      on_rect_border c.x c.y (c.x + c.w) (c.y + c.h) 2 (x : Int) (y : Int) =
        false) :
    (draw_contours d cs f).pixel x y = f.pixel x y := by
  induction cs generalizing f with
  | nil => rfl
  | cons c cs ih =>
    show (draw_contours d cs _).pixel x y = _
    rw [ih _ fun c hc => h c (List.mem_cons_of_mem _ hc)]
    dsimp only
    by_cases harea : c.area < d.threshold
    · rw [if_pos harea]
    · rw [if_neg harea]
      rcases h c (List.mem_cons_self ..) with hlt | hoff
      · exact absurd hlt harea
      · exact cv_rectangle_pixel_off _ _ _ _ _ _ _ _ _ hoff

theorem log_recging_raises (cfg : CameraConfig) (cid : String) (p : String)
    (r : VideoRecorder) (now : Int) :
    log_recging cfg cid p r now = Except.error (PyError.nameError "json") :=
  rfl

theorem VideoRecorder.stop_inactive (r : VideoRecorder)
    (h : r.is_recording = false) : r.stop_recording = (r, none) := by
  unfold VideoRecorder.stop_recording
  rw [if_pos h]

theorem VideoRecorder.stop_clears_flag (r : VideoRecorder)
    (h : r.is_recording = true) :
    ((r.stop_recording).1).is_recording = false := by
  unfold VideoRecorder.stop_recording
  rw [if_neg (by simp [h])]

theorem stop_recording_main_fst (cfg : CameraConfig) (cid : String)
    (r : VideoRecorder) (now : Int) :
    (stop_recording_main cfg cid r now).1 = (r.stop_recording).1 := by
  unfold stop_recording_main
  cases h : (r.stop_recording).2 with
  | none => simp [h]
  | some p => simp [h, log_recging_raises]

/-- C7 (confirmed): `stop` on an inactive sink returns `None` and leaves the
recorder object untouched; `start` on an already active sink returns without
any state change — in particular without creating a second `VideoWriter` —
and raises nothing. -/
theorem C7_idempotent_lifecycle (r1 r2 : VideoRecorder) (frame : Frame)
    (now : Int) (writer_opens : Bool)
    (h1 : r1.is_recording = false) (h2 : r2.is_recording = true) :
    r1.stop_recording = (r1, none) ∧
    r2.start_recording frame now writer_opens = (r2, none) := by
  refine ⟨VideoRecorder.stop_inactive r1 h1, ?_⟩
  unfold VideoRecorder.start_recording
  rw [if_pos h2]

/-- Witness for C7: the freshly initialized recorder is inactive, the started
one is active, and the two idempotence equations hold there. -/
theorem C7_idempotent_lifecycle_witness :
    recorder0.is_recording = false ∧ active_recorder.is_recording = true ∧
    recorder0.stop_recording = (recorder0, none) ∧
    active_recorder.start_recording black_frame 30 true =
      (active_recorder, none) := by
  refine ⟨rfl, rfl, ?_⟩
  exact C7_idempotent_lifecycle recorder0 active_recorder black_frame 30 true
    rfl rfl

/-- C6 counterexample: `add_frame` on a sink whose buffer is at capacity
returns a recorder state identical to the input in every component, so the
drop changes nothing an observer could read — there is no drop counter or
metric anywhere in `VideoRecorder`, refuting the claim's observability
conjunct (the rest of the claim holds, see the amended theorem). -/
theorem C6_drop_unobservable_counterexample :
    full_recorder.add_frame black_frame = full_recorder := rfl

/-- C6 (corrected): while active, `add_frame` on a full buffer drops the
incoming frame and leaves the recorder — in particular the buffered frames
and their FIFO order — entirely unchanged; the buffer never exceeds its
capacity of 100; when there is room, the frame is appended at the tail,
preserving the order of the retained frames; the drop path raises nothing
(the function is total).  The drop is however silent: no counter or metric
records it. -/
theorem C6_bounded_buffer (r : VideoRecorder) (f : Frame)
    (h : r.frame_queue.length ≤ 100) :
    (r.add_frame f).frame_queue.length ≤ 100 ∧
    (r.frame_queue.length = 100 → r.add_frame f = r) ∧
    (r.is_recording = true → r.frame_queue.length < 100 →
      (r.add_frame f).frame_queue = r.frame_queue ++ [f]) := by
  unfold VideoRecorder.add_frame
  by_cases hc : r.is_recording = true ∧ r.frame_queue.length < 100
  · rw [if_pos hc]
    obtain ⟨hb, hl⟩ := hc
    refine ⟨?_, ?_, fun _ _ => rfl⟩
    · simp
      omega
    · intro h100
      omega
  · rw [if_neg hc]
    exact ⟨h, fun _ => rfl, fun hb hl => absurd ⟨hb, hl⟩ hc⟩

/-- Witness for C6 at the active recorder, whose buffer holds one frame. -/
theorem C6_bounded_buffer_witness :
    active_recorder.frame_queue.length ≤ 100 ∧
    ((active_recorder.add_frame black_frame).frame_queue.length ≤ 100 ∧
      (active_recorder.frame_queue.length = 100 →
        active_recorder.add_frame black_frame = active_recorder) ∧
      (active_recorder.is_recording = true →
        active_recorder.frame_queue.length < 100 →
        (active_recorder.add_frame black_frame).frame_queue =
          active_recorder.frame_queue ++ [black_frame])) :=
  ⟨by decide, C6_bounded_buffer active_recorder black_frame (by decide)⟩

/-- C9 counterexample: starting the fresh (inactive) recorder with an encoder
that fails to open does raise `EncoderOpenError`, but the failure is not
atomic — the sink is left marked active (`is_recording = true`) although it
was inactive before the call, refuting the claim's atomicity conjunct. -/
theorem C9_not_atomic_counterexample :
    (recorder0.start_recording black_frame 5 false).2 =
      some RecError.encoderOpenError ∧
    (recorder0.start_recording black_frame 5 false).1.is_recording = true ∧
    recorder0.is_recording = false :=
  ⟨rfl, rfl, rfl⟩

/-- C9 (corrected): when the encoder cannot be created, `start_recording` on
an inactive sink raises `EncoderOpenError` to the caller, starts no consumer
loop and enqueues no frame, and leaves `start_time` untouched — but it is not
atomic: the sink is left marked active, with `last_video_path` pointing at
the new target and an unopened writer stored. -/
theorem C9_encoder_open_failure (r : VideoRecorder) (f : Frame) (now : Int)
    (h : r.is_recording = false) :
    (r.start_recording f now false).2 = some RecError.encoderOpenError ∧
    (r.start_recording f now false).1.is_recording = true ∧
    (r.start_recording f now false).1.recording_thread =
      r.recording_thread ∧
    (r.start_recording f now false).1.frame_queue = r.frame_queue ∧
    (r.start_recording f now false).1.start_time = r.start_time ∧
    (r.start_recording f now false).1.last_video_path =
      some (r.video_path_for now) ∧
    (r.start_recording f now false).1.video_writer =
      some { opened := false, frames_written := [], released := false } := by
  unfold VideoRecorder.start_recording
  rw [if_neg (by simp [h])]
  exact ⟨rfl, rfl, rfl, rfl, rfl, rfl, rfl⟩

/-- Witness for C9 at the fresh recorder. -/
theorem C9_encoder_open_failure_witness :
    recorder0.is_recording = false ∧
    ((recorder0.start_recording black_frame 7 false).2 =
        some RecError.encoderOpenError ∧
      (recorder0.start_recording black_frame 7 false).1.is_recording = true ∧
      (recorder0.start_recording black_frame 7 false).1.recording_thread =
        recorder0.recording_thread ∧
      (recorder0.start_recording black_frame 7 false).1.frame_queue =
        recorder0.frame_queue ∧
      (recorder0.start_recording black_frame 7 false).1.start_time =
        recorder0.start_time ∧
      (recorder0.start_recording black_frame 7 false).1.last_video_path =
        some (recorder0.video_path_for 7) ∧
      (recorder0.start_recording black_frame 7 false).1.video_writer =
        some { opened := false, frames_written := [], released := false }) :=
  ⟨rfl, C9_encoder_open_failure recorder0 black_frame 7 rfl⟩

/-- C4 (code_bug): `SurveillanceSystem.stop` evaluates
`recorder.is_recording()` for each recorder, but the boolean instance
attribute `self.is_recording` assigned in `VideoRecorder.__init__` shadows
the method of the same name, so the call raises `TypeError` on the first
recorder and `stop` force-stops nothing — for any recorder list with at
least one entry, active or not. -/
theorem C4_stop_raises (r : VideoRecorder) (rs : List VideoRecorder) :
    stop_all_recorders (r :: rs) =
      Except.error (PyError.typeError "bool object is not callable") := rfl

/-- C5 (code_bug): stopping the active recording does dispatch the finalized
clip to the Telegram notifier, but no entry is ever appended to the external
recording log: `log_recging` evaluates `json.dumps`, and `main.py` never
imports `json`, so a `NameError` is raised and swallowed by
`stop_recording`'s `except` handler.  The event trace of a concrete stop
contains the notifier dispatch and the caught `NameError` and no
`appendedLogEntry`. -/
theorem C5_log_append_lost :
    (stop_recording_main cfg5 "cam1" active_recorder 20).2 =
      [Event.savedLogInfo "recordings/cam1_18.mp4",
       Event.sentVideo "recordings/cam1_18.mp4",
       Event.caughtError (PyError.nameError "json")] ∧
    ((stop_recording_main cfg5 "cam1" active_recorder 20).1).is_recording =
      false :=
  ⟨rfl, rfl⟩

/-- Concrete ROI coordinates of the default detector on the 10-by-10 test
frame: the full-frame ROI `[0, 0, 1, 1]` maps to the rectangle
`(0, 0)-(10, 10)`. -/
theorem detector0_roi_coords :
    detector0.get_roi_coords black_frame.width black_frame.height =
      (0, 0, 10, 10) := by
  norm_num [detector0, MotionDetector.init, MotionDetector.get_roi_coords,
    pyInt, black_frame]

/-- C8 counterexample: `detect` always draws the red ROI rectangle onto the
input frame (`motion_detector.py` line 91), so even with no contours at all
the frame that comes out differs from the frame that went in — pixel (0, 0)
of the all-black test frame has been painted red — refuting the claim that
the input frame's pixel contents are left unchanged. -/
theorem C8_mutates_frame_counterexample :
    (detector0.detect_full black_frame []).2.1 ≠ black_frame := by
  intro h
  have h0 : (detector0.detect_full black_frame []).2.1.pixel 0 0 =
      black_frame.pixel 0 0 := by rw [h]
  have he : (detector0.detect_full black_frame []).2.1 =
      cv_rectangle black_frame 0 0 10 10 (0, 0, 255) 2 := by
    show cv_rectangle (draw_contours detector0 [] black_frame)
        (detector0.get_roi_coords black_frame.width black_frame.height).1
        (detector0.get_roi_coords black_frame.width black_frame.height).2.1
        (detector0.get_roi_coords black_frame.width black_frame.height).2.2.1
        (detector0.get_roi_coords black_frame.width black_frame.height).2.2.2
        (0, 0, 255) 2 =
      cv_rectangle black_frame 0 0 10 10 (0, 0, 255) 2
    rw [detector0_roi_coords]
    rfl
  rw [he] at h0
  exact absurd h0 (by decide)

/-- C8 (corrected): `detect` mutates the classifier's internal counters
exactly as the debounce update prescribes, and additionally draws onto the
input frame — a green bounding box for each qualifying contour and always
the red ROI rectangle; every pixel outside those painted borders keeps its
value, and the frame dimensions are unchanged.  Nothing else outside the
classifier is touched. -/
theorem C8_frame_effect (d : MotionDetector) (f : Frame) (cs : List Contour)
    (x y : Nat)
    (hroi : on_rect_border (d.get_roi_coords f.width f.height).1
        (d.get_roi_coords f.width f.height).2.1
        (d.get_roi_coords f.width f.height).2.2.1
        (d.get_roi_coords f.width f.height).2.2.2 2 (x : Int) (y : Int) =
          false)
    (hcs : ∀ c ∈ cs, c.area < d.threshold ∨
        on_rect_border c.x c.y (c.x + c.w) (c.y + c.h) 2 (x : Int)
          (y : Int) = false) :
    (d.detect_full f cs).2.1.pixel x y = f.pixel x y ∧
    (d.detect_full f cs).2.1.width = f.width ∧
    (d.detect_full f cs).2.1.height = f.height ∧
    (d.detect_full f cs).1 =
      d.update (cs.any fun c => !(decide (c.area < d.threshold))) := by
  have hdf : (d.detect_full f cs).2.1 =
      cv_rectangle (draw_contours d cs f)
        (d.get_roi_coords f.width f.height).1
        (d.get_roi_coords f.width f.height).2.1
        (d.get_roi_coords f.width f.height).2.2.1
        (d.get_roi_coords f.width f.height).2.2.2 (0, 0, 255) 2 := rfl
  refine ⟨?_, ?_, ?_, rfl⟩
  · rw [hdf, cv_rectangle_pixel_off _ _ _ _ _ _ _ _ _ hroi,
      draw_contours_pixel_off d cs f x y hcs]
  · rw [hdf, cv_rectangle_width, draw_contours_width]
  · rw [hdf, cv_rectangle_height, draw_contours_height]

/-- Witness for C8: pixel (5, 5) of the all-black frame is off every painted
border when there are no contours, and survives `detect` unchanged. -/
theorem C8_frame_effect_witness :
    (detector0.detect_full black_frame []).2.1.pixel 5 5 =
      black_frame.pixel 5 5 ∧
    (detector0.detect_full black_frame []).2.1.width = black_frame.width ∧
    (detector0.detect_full black_frame []).2.1.height = black_frame.height ∧
    (detector0.detect_full black_frame []).1 =
      detector0.update (([] : List Contour).any
        fun c => !(decide (c.area < detector0.threshold))) :=
  C8_frame_effect detector0 black_frame [] 5 5
    (by rw [detector0_roi_coords]; decide) (by simp)

/-- C3 (confirmed): with `min_motion_frames = k`, the detector confirms
motion only once at least k qualifying frames have been seen (from zeroed
counters, a stream carrying fewer than k qualifying frames never confirms);
a gap of at most 5 consecutive non-qualifying frames leaves the streak
counter untouched; a gap of 6 or more zeroes it; and k consecutive
qualifying frames always confirm. -/
theorem C3_debounce_policy (k : Nat) (d : MotionDetector)
    (hmin : d.min_motion_frames = k) :
    (d.motion_frames = 0 → ∀ pre suf : List Bool,
      (pre ++ suf).count true < k → (d.run pre).confirmed = false) ∧
    (d.no_motion_frames = 0 → ∀ g : Nat, g ≤ 5 →
      d.run (List.replicate g false) = { d with no_motion_frames := g }) ∧
    (d.no_motion_frames = 0 → ∀ g : Nat, 6 ≤ g →
      (d.run (List.replicate g false)).motion_frames = 0) ∧
    (d.run (List.replicate k true)).confirmed = true := by
  refine ⟨?_, ?_, ?_, ?_⟩
  · intro h0 pre suf hcount
    have hle := MotionDetector.run_motion_le d pre
    have happ : (pre ++ suf).count true = pre.count true + suf.count true :=
      List.count_append ..
    simp only [MotionDetector.confirmed, MotionDetector.run_min, hmin,
      decide_eq_false_iff_not, not_le]
    omega
  · intro h0 g hg
    rw [MotionDetector.run_false_small d g (by omega), h0]
    simp
  · intro h0 g hg
    exact MotionDetector.run_false_big d g h0 hg
  · simp only [MotionDetector.confirmed, MotionDetector.run_min, hmin,
      MotionDetector.run_true_replicate, decide_eq_true_iff]
    omega

/-- Witness for C3 at the default detector (`min_motion_frames = 10`). -/
theorem C3_debounce_policy_witness :
    (detector0.run (List.replicate 9 true)).confirmed = false ∧
    detector0.run (List.replicate 3 false) =
      { detector0 with no_motion_frames := 3 } ∧
    (detector0.run (List.replicate 10 true)).confirmed = true :=
  ⟨(C3_debounce_policy 10 detector0 rfl).1 rfl (List.replicate 9 true) []
      (by decide),
   (C3_debounce_policy 10 detector0 rfl).2.1 rfl 3 (by decide),
   (C3_debounce_policy 10 detector0 rfl).2.2.2⟩

/-- C10 (confirmed): once the streak counter has reached
`min_motion_frames = k` (with k positive and the no-motion counter at zero),
each of the next 5 consecutive non-qualifying frames still yields a
confirmed-motion report, and from the 6th consecutive non-qualifying frame
on the report is `False`; and a confirmed-motion report on a recording
camera refreshes `last_motion` to the current time, bumps the supervisor's
counter, and feeds the frame to the recorder. -/
theorem C10_grace_window (k : Nat) (d : MotionDetector)
    (hmin : d.min_motion_frames = k) (hk : 1 ≤ k)
    (hm : k ≤ d.motion_frames) (hn : d.no_motion_frames = 0) :
    (∀ j : Nat, j ≤ 5 → (d.run (List.replicate j false)).confirmed = true) ∧
    (∀ j : Nat, 6 ≤ j →
      (d.run (List.replicate j false)).confirmed = false) ∧
    (∀ (cfg : CameraConfig) (cid : String) (st : CamState)
        (r : VideoRecorder) (frame : Frame) (now : Int) (wo : Bool),
      st.recording = true →
      update_camera_state cfg cid st r true frame now wo =
        Except.ok
          ({ st with motion_count := st.motion_count + 1, last_motion := some now },
           r.add_frame frame, [Event.addFrame])) := by
  refine ⟨?_, ?_, ?_⟩
  · intro j hj
    rw [MotionDetector.run_false_small d j (by omega)]
    simp only [MotionDetector.confirmed, decide_eq_true_iff]
    omega
  · intro j hj
    have hz := MotionDetector.run_false_big d j hn hj
    simp only [MotionDetector.confirmed, MotionDetector.run_min, hmin, hz,
      decide_eq_false_iff_not, not_le]
    omega
  · intro cfg cid st r frame now wo hrec
    unfold update_camera_state
    rw [if_pos rfl, if_neg (by simp [hrec]), if_pos (by simp [hrec])]

/-- Witness for C10 at a detector whose streak counter stands at 12 with
`min_motion_frames = 10`: five non-qualifying frames still confirm, the
sixth does not. -/
theorem C10_grace_window_witness :
    ((detector0.run (List.replicate 12 true)).run
        (List.replicate 5 false)).confirmed = true ∧
    ((detector0.run (List.replicate 12 true)).run
        (List.replicate 6 false)).confirmed = false :=
  ⟨(C10_grace_window 10 (detector0.run (List.replicate 12 true)) rfl
      (by decide) (by decide) rfl).1 5 (by decide),
   (C10_grace_window 10 (detector0.run (List.replicate 12 true)) rfl
      (by decide) (by decide) rfl).2.1 6 (by decide)⟩

/-- C2 (confirmed): on a processed frame with no confirmed motion during an
active recording, the supervisor stops the recording exactly when both
`now - lastMotion > cooldown_time` and `now - motionStart >=
min_recording_time` hold; until then the frame is still fed to the recorder
and nothing else changes; on stop the camera state has `recording = false`
and `motion_count = 0` (the IDLE state) and the recorder is no longer
recording.  In particular the recording never stops while
`now - motionStart < min_recording_time`. -/
theorem C2_stop_conditions (cfg : CameraConfig) (cid : String) (st : CamState)
    (r : VideoRecorder) (frame : Frame) (now lm ms : Int) (wo : Bool)
    (hrec : st.recording = true) (hr : r.is_recording = true)
    (hlm : st.last_motion = some lm) (hlm0 : lm ≠ 0)
    (hms : st.motion_start = some ms) :
    (¬(now - lm > cfg.cooldown_time ∧ now - ms ≥ cfg.min_recording_time) →
      update_camera_state cfg cid st r false frame now wo =
        Except.ok (st, r.add_frame frame, [Event.addFrame])) ∧
    (now - lm > cfg.cooldown_time → now - ms ≥ cfg.min_recording_time →
      update_camera_state cfg cid st r false frame now wo =
        Except.ok ({ st with recording := false, motion_count := 0 },
          (stop_recording_main cfg cid r now).1,
          (stop_recording_main cfg cid r now).2) ∧
      ((stop_recording_main cfg cid r now).1).is_recording = false) ∧
    (now - ms < cfg.min_recording_time →
      update_camera_state cfg cid st r false frame now wo =
        Except.ok (st, r.add_frame frame, [Event.addFrame])) := by
  have hpy : pyOrInt st.last_motion now = lm := by
    rw [hlm]
    simp [pyOrInt, hlm0]
  have hmain : update_camera_state cfg cid st r false frame now wo =
      if now - lm > cfg.cooldown_time then
        if now - ms ≥ cfg.min_recording_time then
          Except.ok ({ st with recording := false, motion_count := 0 },
            (stop_recording_main cfg cid r now).1,
            (stop_recording_main cfg cid r now).2)
        else Except.ok (st, r.add_frame frame, [Event.addFrame])
      else
        Except.ok (st, r.add_frame frame, [Event.addFrame]) := by
    simp only [update_camera_state, Bool.false_eq_true, if_false, hrec,
      if_true, hpy, hms]
  refine ⟨?_, ?_, ?_⟩
  · intro hnot
    rw [hmain]
    by_cases hcool : now - lm > cfg.cooldown_time
    · rw [if_pos hcool, if_neg (fun hmin => hnot ⟨hcool, hmin⟩)]
    · rw [if_neg hcool]
  · intro hcool hmin
    refine ⟨?_, ?_⟩
    · rw [hmain, if_pos hcool, if_pos hmin]
    · rw [stop_recording_main_fst]
      exact VideoRecorder.stop_clears_flag r hr
  · intro hshort
    rw [hmain]
    by_cases hcool : now - lm > cfg.cooldown_time
    · rw [if_pos hcool, if_neg (by omega)]
    · rw [if_neg hcool]

/-- Witness for C2 at scenario B's camera: at time 26 the cooldown has not
elapsed, so the frame is still fed; at time 33 both conditions hold, so the
recording stops, the counter resets, and the recorder is inactive. -/
theorem C2_stop_conditions_witness :
    (update_camera_state cfgB "cam1" stB active_recorder false black_frame 26
        true = Except.ok (stB, active_recorder.add_frame black_frame,
          [Event.addFrame])) ∧
    (update_camera_state cfgB "cam1" stB active_recorder false black_frame 33
        true =
      Except.ok ({ stB with recording := false, motion_count := 0 },
        (stop_recording_main cfgB "cam1" active_recorder 33).1,
        (stop_recording_main cfgB "cam1" active_recorder 33).2)) ∧
    ((stop_recording_main cfgB "cam1" active_recorder 33).1).is_recording =
      false :=
  ⟨(C2_stop_conditions cfgB "cam1" stB active_recorder black_frame 26 23 18
      true rfl rfl rfl (by decide) rfl).1 (by decide),
   ((C2_stop_conditions cfgB "cam1" stB active_recorder black_frame 33 23 18
      true rfl rfl rfl (by decide) rfl).2.1 (by decide) (by decide)).1,
   ((C2_stop_conditions cfgB "cam1" stB active_recorder black_frame 33 23 18
      true rfl rfl rfl (by decide) rfl).2.1 (by decide) (by decide)).2⟩

/-- C1 counterexample: from the idle state with all counters at zero and
`min_motion_frames = 10`, feeding 10 consecutive qualifying frames leaves
the detector confirming motion (its streak counter reached 10) — yet no
recording has been opened: the supervisor re-counts detector-confirmed
frames against `min_motion_frames` a second time (`main.py` line 173), and
its own counter is only at 1.  This refutes the claim that 10 qualifying
frames open a recording. -/
theorem C1_ten_frames_no_recording_counterexample :
    (run_pipeline cfgB "cam1" black_frame true pipeline0
        (scenarioB_inputs 10)).map
      (fun p => (p.detector.confirmed, p.camState.recording,
        p.camState.motion_count, p.recorder.is_recording)) =
      Except.ok (true, false, 1, false) := rfl

/-- C1 (corrected): with frames one second apart, 19 consecutive qualifying
frames are needed before the recording opens — the detector confirms on the
10th frame, and the supervisor's second `min_motion_frames` gate fills on the
19th (prefix of 18 frames: still idle; prefix of 19: recording open, no stop
yet).  From frame 20 on, no contour qualifies; the detector's grace window
keeps reporting motion for 5 more frames (refreshing `last_motion` up to
t = 23), so with `cooldown_time = 3` and `min_recording_time = 15` the
recording is still open at t = 32 (cooldown long since elapsed, elapsed time
under the floor), and on the frame at t = 33 — the first time both the
cooldown and the minimum-duration condition hold — it closes, exactly once:
after 34 frames and after 35 frames the trace holds exactly one finalized
recording and the camera is idle with `motion_count = 0`. -/
theorem C1_scenarioB_amended :
    scenarioB 18 = Except.ok (false, 9, 0) ∧
    scenarioB 19 = Except.ok (true, 10, 0) ∧
    scenarioB 28 = Except.ok (true, 15, 0) ∧
    scenarioB 33 = Except.ok (true, 15, 0) ∧
    scenarioB 34 = Except.ok (false, 0, 1) ∧
    scenarioB 35 = Except.ok (false, 0, 1) :=
  ⟨rfl, rfl, rfl, rfl, rfl, rfl⟩
